import Mathlib

/-!
Shallow embedding of the MicroX realtime-analysis dashboard core.

The definitions below are translated from the TypeScript sources: the type
declarations (AnalysisFrame, ConnectionState, EmotionDataPoint), the event
reducer appReducer with its bounded history buffers, the connect and
disconnect lifecycle, the audio producer callback installed by
startStreaming, the video producer tick with its re-entrancy guard, and the
tool-call decoder for report_analysis payloads.

Conventions of the embedding:
- JavaScript numbers are modelled as integers (the fields involved only carry
  integral values in the properties under study).
- Reads of the wall clock (new Date() inside the reducer and the decoder) are
  made explicit as a String argument named now; this exposes, rather than
  hides, the clock dependence of the original code.
- JavaScript truthiness tests on optional values are modelled by explicit
  helpers (jsOrStr, jsOrInt, jsOrBool, jsOrNull, jsOrList): undefined and
  null become none, and the falsy values of each type are spelled out.
-/

namespace MicroX

/-- Connection state of the remote session, from the ConnectionState enum of
the types module. -/
inductive ConnectionState where
  | disconnected
  | connecting
  | connected
  | error
deriving DecidableEq, Repr

/-- One reported observation, from the AnalysisFrame interface of the types
module. -/
structure AnalysisFrame where
  timestamp : String
  dominant_emotion : String
  confidence : Int
  micro_expression : Option String
  active_aus : List String
  incongruence : Bool
  baseline_deviation : Int
  analysis_summary : String
deriving DecidableEq, Repr

/-- Derived timeline projection of a frame, from the EmotionDataPoint
interface of the types module. -/
structure EmotionDataPoint where
  time : String
  intensity : Int
  emotion : String
deriving DecidableEq, Repr

/-- Aggregate UI state, from the AppState interface of the main module. -/
structure AppState where
  connectionState : ConnectionState
  frames : List AnalysisFrame
  currentFrame : Option AnalysisFrame
  timelineData : List EmotionDataPoint
  isMicOn : Bool
deriving DecidableEq, Repr

/-- Reducer events, from the Action union type of the main module. -/
inductive Action where
  | setConnection (payload : ConnectionState)
  | addFrame (payload : AnalysisFrame)
  | toggleMic
  | reset
deriving DecidableEq, Repr

/-- Initial state, from the initialState constant of the main module. -/
def initialState : AppState :=
  { connectionState := ConnectionState.disconnected
    frames := []
    currentFrame := none
    timelineData := []
    isMicOn := true }

/-- The timeline point object literal built inside the ADD_FRAME branch of
appReducer: time is the wall-clock label produced by
new Date().toLocaleTimeString(), passed here explicitly as now. -/
def mkTimelinePoint (now : String) (payload : AnalysisFrame) : EmotionDataPoint :=
  { time := now
    intensity := payload.baseline_deviation
    emotion := payload.dominant_emotion }

/-- The event reducer appReducer of the main module. The clock read performed
by new Date().toLocaleTimeString() inside the ADD_FRAME branch is surfaced as
the explicit argument now. The JavaScript array operations translate as:
spreading the payload in front of frames and taking slice(0, 50) becomes
List.take 50 of the consed list; appending the point and taking slice(-60)
becomes List.rtake of the appended list. -/
def appReducer (now : String) (state : AppState) (action : Action) : AppState :=
  match action with
  | Action.setConnection payload => { state with connectionState := payload }
  | Action.addFrame payload =>
      let newTimeline := (state.timelineData ++ [mkTimelinePoint now payload]).rtake 60
      { state with
        frames := (payload :: state.frames).take 50
        currentFrame := some payload
        timelineData := newTimeline }
  | Action.toggleMic => { state with isMicOn := !state.isMicOn }
  | Action.reset => initialState

/-- Run a sequence of events through the reducer from the initial state; each
event carries the clock label observed when it was dispatched. -/
def runEvents (es : List (String × Action)) : AppState :=
  es.foldl (fun s e => appReducer e.1 s e.2) initialState

/-- One add-frame dispatch: the event carries the clock label observed when
it was dispatched. -/
def addStep (s : AppState) (e : String × AnalysisFrame) : AppState :=
  appReducer e.1 s (Action.addFrame e.2)

/-- Run a sequence of add-frame events through the reducer from the initial
state. -/
def runAdds (es : List (String × AnalysisFrame)) : AppState :=
  es.foldl addStep initialState

/-- Erase the clock-derived time label of a timeline point. -/
def stripPoint (p : EmotionDataPoint) : EmotionDataPoint :=
  { p with time := "" }

/-- Erase the clock-derived time labels of a state; everything that is not a
time label is kept. -/
def stripTimes (s : AppState) : AppState :=
  { s with timelineData := s.timelineData.map stripPoint }

/-- JavaScript defaulting v || d for an optional string: undefined, null and
the empty string are falsy. -/
def jsOrStr (v : Option String) (d : String) : String :=
  match v with
  | none => d
  | some s => if s = "" then d else s

/-- JavaScript defaulting v || d for an optional number: undefined, null and
zero are falsy. -/
def jsOrInt (v : Option Int) (d : Int) : Int :=
  match v with
  | none => d
  | some n => if n = 0 then d else n

/-- JavaScript defaulting v || d for an optional boolean: undefined, null and
false are falsy. -/
def jsOrBool (v : Option Bool) (d : Bool) : Bool :=
  match v with
  | none => d
  | some b => if b then b else d

/-- JavaScript defaulting v || null for an optional string. -/
def jsOrNull (v : Option String) : Option String :=
  match v with
  | none => none
  | some s => if s = "" then none else some s

/-- JavaScript defaulting v || d for an optional array: a JavaScript array is
always truthy, even when empty, so a present array is never replaced. -/
def jsOrList (v : Option (List String)) (d : List String) : List String :=
  match v with
  | none => d
  | some l => l

/-- Arguments of a received report_analysis tool call. Every field is
optional on the wire; none models both undefined and null. -/
structure ReportAnalysisArgs where
  dominant_emotion : Option String
  confidence : Option Int
  micro_expression : Option String
  active_aus : Option (List String)
  incongruence : Option Bool
  baseline_deviation : Option Int
  analysis_summary : Option String
deriving DecidableEq, Repr

/-- The AnalysisFrame built in the onmessage callback for a report_analysis
tool call. Each field applies the JavaScript || defaulting of the source; the
timestamp is the clock read new Date().toISOString(), passed as now. -/
def decodeReportAnalysis (now : String) (data : ReportAnalysisArgs) : AnalysisFrame :=
  { timestamp := now
    dominant_emotion := jsOrStr data.dominant_emotion "Neutral"
    confidence := jsOrInt data.confidence 0
    micro_expression := jsOrNull data.micro_expression
    active_aus := jsOrList data.active_aus []
    incongruence := jsOrBool data.incongruence false
    baseline_deviation := jsOrInt data.baseline_deviation 0
    analysis_summary := jsOrStr data.analysis_summary "Processing..." }

/-- Wire blob produced by the frame codec for one audio buffer. -/
structure PcmBlob where
  data : List Int
deriving DecidableEq, Repr

/-- Modelled from the spec: createPcmBlob lives in utils/audioUtils, a file
not among the provided sources. The spec describes the frame codec as a pure,
stateless transform from raw one-channel samples to the wire-ready sample
encoding; it is modelled as the packaging of the sample buffer into a wire
blob, which is all the properties below use of it. -/
def createPcmBlob (samples : List Int) : PcmBlob :=
  { data := samples }

/-- Messages transmitted on the realtime input of the remote session. -/
inductive OutMessage where
  | realtimeAudio (media : PcmBlob)
  | realtimeImage (mimeType : String) (data : String)
deriving DecidableEq, Repr

/-- Body of the processor.onaudioprocess callback, per delivered buffer: if
the mic flag it consults is off, return without producing anything; otherwise
encode the buffer with the frame codec and send it as realtime input. -/
def onAudioProcess (micOn : Bool) (buffer : List Int) : Option OutMessage :=
  if !micOn then none
  else some (OutMessage.realtimeAudio (createPcmBlob buffer))

/-- State of the running audio pipeline. micNow is state.isMicOn of the
latest render; micCaptured is the value of state.isMicOn closed over by the
onaudioprocess callback when startStreaming installed it. The callback is
installed once per connection and never re-installed on re-render, so its
closure keeps the state binding of the render in which connect was invoked. -/
structure AudioStreamState where
  micNow : Bool
  micCaptured : Bool
  sent : List OutMessage
deriving DecidableEq, Repr

/-- Install the onaudioprocess callback (startStreaming): the closure
captures the current value of the mic flag. -/
def installAudioCallback (micOn : Bool) : AudioStreamState :=
  { micNow := micOn, micCaptured := micOn, sent := [] }

/-- Events observed by the audio pipeline after installation: the user
toggles the mic (a TOGGLE_MIC dispatch followed by a re-render), or the
capture subsystem delivers a buffer to the installed callback. -/
inductive AudioEvent where
  | toggleMic
  | buffer (samples : List Int)
deriving DecidableEq, Repr

/-- Step of the audio pipeline. A toggle flips the current flag only: the
installed closure is not replaced, so the captured flag is unchanged. A
delivered buffer runs the installed callback body, which consults the
captured flag. -/
def audioStep (st : AudioStreamState) (e : AudioEvent) : AudioStreamState :=
  match e with
  | AudioEvent.toggleMic => { st with micNow := !st.micNow }
  | AudioEvent.buffer samples =>
      match onAudioProcess st.micCaptured samples with
      | none => st
      | some m => { st with sent := st.sent ++ [m] }

/-- State of the video producer loop: whether a tick is in flight
(processingRef.current) and the frames transmitted so far, identified by the
id of the tick that captured them. -/
structure VideoState where
  processing : Bool
  sent : List Nat
deriving DecidableEq, Repr

/-- Events of the video producer loop: the interval timer fires (fid
identifies the current video frame; ready is the readyState check of the
video element), or an in-flight transmission completes, which runs the tail
of the callback that resets processingRef.current. -/
inductive VidEvent where
  | tick (fid : Nat) (ready : Bool)
  | sendComplete
deriving DecidableEq, Repr

/-- Step of the video producer loop, from the interval callback of
startStreaming: a tick that finds the guard set returns immediately (no
capture, no transmission, nothing queued); otherwise the guard is set and, if
the video element is ready, the frame is captured and its transmission
initiated. When the video element is not ready the callback resets the guard
before returning, so the state is unchanged. -/
def vidStep (s : VideoState) (e : VidEvent) : VideoState :=
  match e with
  | VidEvent.tick fid ready =>
      if s.processing then s
      else if ready then { processing := true, sent := s.sent ++ [fid] }
      else s
  | VidEvent.sendComplete => { s with processing := false }

/-- Run the video producer loop from its idle initial state. -/
def vidRun (trace : List VidEvent) : VideoState :=
  trace.foldl vidStep { processing := false, sent := [] }

/-- Ids of the frames offered by the ticks of a trace, in firing order. -/
def tickIds (trace : List VidEvent) : List Nat :=
  trace.filterMap (fun e =>
    match e with
    | VidEvent.tick fid _ => some fid
    | VidEvent.sendComplete => none)

/-- Resources held through the mutable refs of the component. frameInterval
is the stored interval id (clearInterval does not null the ref, so the id is
retained); timerActive records whether the interval is actually scheduled;
the remaining fields record whether the audio processor node, the media
stream source node, the audio context, the media stream and the session
handle are held. -/
structure Resources where
  frameInterval : Option Nat
  timerActive : Bool
  processor : Bool
  sourceNode : Bool
  audioContext : Bool
  stream : Bool
  session : Bool
deriving DecidableEq, Repr

/-- The resource state before anything is acquired. -/
def emptyResources : Resources :=
  { frameInterval := none
    timerActive := false
    processor := false
    sourceNode := false
    audioContext := false
    stream := false
    session := false }

/-- Teardown, from stopStreaming: clear the interval when an id is stored
(without nulling the ref), then disconnect and null the processor node, the
source node and the audio context, stop every track of the stream and null
it, and finally null the session handle. Every step is guarded by a null
check, so absent resources are left untouched. -/
def stopStreaming (r : Resources) : Resources :=
  { frameInterval := r.frameInterval
    timerActive := if r.frameInterval.isSome then false else r.timerActive
    processor := false
    sourceNode := false
    audioContext := false
    stream := false
    session := false }

/-- The disconnect operation: teardown followed by a SET_CONNECTION dispatch
to disconnected. -/
def disconnect (now : String) (r : Resources) (s : AppState) : Resources × AppState :=
  (stopStreaming r, appReducer now s (Action.setConnection ConnectionState.disconnected))

/-- JavaScript truthiness of the optional API key string: undefined and the
empty string fail the if (!apiKey) guard. -/
def jsTruthyStr (v : Option String) : Bool :=
  match v with
  | none => false
  | some s => s ≠ ""

/-- Observable effects of a connect() invocation, in program order. -/
inductive Eff where
  | dispatch (a : Action)
  | requestMedia
  | openSession
  | sendKickoff
  | teardown
deriving DecidableEq, Repr

/-- Effect trace of connect(), from the main module: a falsy API key logs and
returns before anything else; otherwise connect dispatches CONNECTING,
requests camera and microphone, and opens the remote session. mediaOk and
sessionOk stand for the outcomes of the two awaited acquisitions: a rejection
lands in the catch block, which dispatches ERROR and tears down; a successful
open fires the onopen callback, which dispatches CONNECTED, starts the
producers and sends the kickoff message. -/
def connectTrace (apiKey : Option String) (mediaOk : Bool) (sessionOk : Bool) : List Eff :=
  if !jsTruthyStr apiKey then []
  else
    Eff.dispatch (Action.setConnection ConnectionState.connecting) ::
    Eff.requestMedia ::
    (if !mediaOk then
      [Eff.dispatch (Action.setConnection ConnectionState.error), Eff.teardown]
    else
      Eff.openSession ::
      (if sessionOk then
        [Eff.dispatch (Action.setConnection ConnectionState.connected), Eff.sendKickoff]
      else
        [Eff.dispatch (Action.setConnection ConnectionState.error), Eff.teardown]))

/-- Apply the dispatches of an effect trace to a state; non-dispatch effects
do not touch the reducer state. -/
def applyEffs (now : String) (s : AppState) (effs : List Eff) : AppState :=
  effs.foldl (fun st e =>
    match e with
    | Eff.dispatch a => appReducer now st a
    | _ => st) s

/-- A concrete frame used by the concrete evaluations below. -/
def sampleFrame : AnalysisFrame :=
  { timestamp := "t0"
    dominant_emotion := "Happy"
    confidence := 50
    micro_expression := none
    active_aus := ["AU6"]
    incongruence := false
    baseline_deviation := 10
    analysis_summary := "ok" }

/-- A tool-call payload with every optional field absent. -/
def argsAbsent : ReportAnalysisArgs :=
  ⟨none, none, none, none, none, none, none⟩

/-- A tool-call payload with every field present and truthy. -/
def argsPresent : ReportAnalysisArgs :=
  ⟨some "Happy", some 42, some "Smirk", some ["AU1"], some true, some 7, some "ok"⟩

/-- A tool-call payload whose dominant_emotion is present but is the empty
string, a falsy JavaScript value. -/
def argsEmptyEmotion : ReportAnalysisArgs :=
  ⟨some "", none, none, none, none, none, none⟩

/-- A resource state with everything acquired. -/
def fullResources : Resources :=
  { frameInterval := some 3
    timerActive := true
    processor := true
    sourceNode := true
    audioContext := true
    stream := true
    session := true }

/-! Helper lemmas about truncated buffers. -/

/-- Taking n of an append whose tail was already truncated to n equals taking
n of the plain append. -/
theorem take_append_take {α : Type} (n : Nat) (A l : List α) :
    (A ++ l.take n).take n = (A ++ l).take n := by
  rw [List.take_append_eq_append_take, List.take_append_eq_append_take, List.take_take,
    inf_eq_left.mpr (Nat.sub_le n A.length)]

/-- Keeping the last n of a list whose head part was already truncated to its
last n equals keeping the last n of the plain append. -/
theorem rtake_append_rtake {α : Type} (n : Nat) (l B : List α) :
    (l.rtake n ++ B).rtake n = (l ++ B).rtake n := by
  have h1 : (l.rtake n).reverse = l.reverse.take n := by
    rw [List.rtake_eq_reverse_take_reverse, List.reverse_reverse]
  rw [List.rtake_eq_reverse_take_reverse (l.rtake n ++ B) n,
    List.rtake_eq_reverse_take_reverse (l ++ B) n,
    List.reverse_append, List.reverse_append, h1, take_append_take]

/-- The last-n truncation never exceeds n elements. -/
theorem length_rtake_le {α : Type} (n : Nat) (l : List α) : (l.rtake n).length ≤ n := by
  simp only [List.rtake, List.length_drop]
  omega

/-- A list no longer than n is unchanged by the last-n truncation. -/
theorem rtake_of_length_le {α : Type} {l : List α} {n : Nat} (h : l.length ≤ n) :
    l.rtake n = l := by
  simp [List.rtake, Nat.sub_eq_zero_of_le h]

/-- Mapping commutes with the last-n truncation. -/
theorem map_rtake {α β : Type} (f : α → β) (l : List α) (n : Nat) :
    (l.rtake n).map f = (l.map f).rtake n := by
  simp [List.rtake, List.map_drop]

/-- A mapped list is pointwise related to the original when the function
realizes the relation. -/
theorem forall2_map_left {α β : Type} {R : β → α → Prop} (f : α → β) (l : List α)
    (h : ∀ a, R (f a) a) : List.Forall₂ R (l.map f) l := by
  induction l with
  | nil => exact List.Forall₂.nil
  | cons a tl ih => exact List.Forall₂.cons (h a) ih

/-- The frames buffer after one add-frame dispatch. -/
theorem addStep_frames (s : AppState) (e : String × AnalysisFrame) :
    (addStep s e).frames = (e.2 :: s.frames).take 50 := rfl

/-- The timeline buffer after one add-frame dispatch. -/
theorem addStep_timeline (s : AppState) (e : String × AnalysisFrame) :
    (addStep s e).timelineData = (s.timelineData ++ [mkTimelinePoint e.1 e.2]).rtake 60 := rfl

/-- Folding add-frame dispatches: the frames buffer holds the dispatched
frames reversed, in front of the starting frames, truncated to 50. -/
theorem foldl_addStep_frames (es : List (String × AnalysisFrame)) (s : AppState)
    (h : s.frames.take 50 = s.frames) :
    (es.foldl addStep s).frames = ((es.map Prod.snd).reverse ++ s.frames).take 50 := by
  induction es generalizing s with
  | nil => simpa using h.symm
  | cons e tl ih =>
      rw [List.foldl_cons,
        ih (addStep s e) (by rw [addStep_frames, List.take_take, inf_idem]),
        addStep_frames, take_append_take]
      simp

/-- Folding add-frame dispatches: the timeline holds the starting timeline
followed by the derived points of the dispatched frames, truncated to the
last 60. -/
theorem foldl_addStep_timeline (es : List (String × AnalysisFrame)) (s : AppState)
    (h : s.timelineData.rtake 60 = s.timelineData) :
    (es.foldl addStep s).timelineData
      = (s.timelineData ++ es.map (fun e => mkTimelinePoint e.1 e.2)).rtake 60 := by
  induction es generalizing s with
  | nil => simpa using h.symm
  | cons e tl ih =>
      rw [List.foldl_cons,
        ih (addStep s e) (by rw [addStep_timeline, rtake_of_length_le (length_rtake_le 60 _)]),
        addStep_timeline, rtake_append_rtake]
      simp

/-- C1: for every sequence of add-frame events applied to the initial state,
the frames history is exactly the dispatched frames most-recent-first
truncated to the 50 most recent (so the oldest entries beyond the cap are the
evicted ones), its length equals min 50 (number of events), and it never
exceeds 50. -/
theorem frames_history_cap (es : List (String × AnalysisFrame)) :
    (runAdds es).frames = ((es.map Prod.snd).reverse).take 50 ∧
    (runAdds es).frames.length = min 50 es.length ∧
    (runAdds es).frames.length ≤ 50 := by
  have h : (runAdds es).frames = ((es.map Prod.snd).reverse).take 50 := by
    have h0 := foldl_addStep_frames es initialState rfl
    simpa [runAdds, initialState] using h0
  refine ⟨h, ?_, ?_⟩
  · rw [h]
    simp
  · rw [h]
    simp

/-- C2: for every sequence of add-frame events applied to the initial state,
the timeline holds the derived points of the last-60 events in chronological
order (FIFO eviction of the oldest), never exceeds 60 entries, and each entry
keeps intensity equal to the baseline_deviation of the frame it was derived
from. -/
theorem timeline_cap_fifo (es : List (String × AnalysisFrame)) :
    (runAdds es).timelineData.length ≤ 60 ∧
    (runAdds es).timelineData = (es.rtake 60).map (fun e => mkTimelinePoint e.1 e.2) ∧
    List.Forall₂ (fun (p : EmotionDataPoint) (e : String × AnalysisFrame) =>
      p.intensity = e.2.baseline_deviation) ((runAdds es).timelineData) (es.rtake 60) := by
  have h : (runAdds es).timelineData = (es.rtake 60).map (fun e => mkTimelinePoint e.1 e.2) := by
    have h0 := foldl_addStep_timeline es initialState rfl
    rw [map_rtake]
    simpa [runAdds, initialState] using h0
  refine ⟨?_, h, ?_⟩
  · rw [h, List.length_map]
    exact length_rtake_le 60 es
  · rw [h]
    exact forall2_map_left _ _ (fun e => rfl)

/-- C9: the toggle-mic event flips the mic flag and leaves every other field
of the state unchanged. -/
theorem toggle_mic_flips_only_mic (now : String) (s : AppState) :
    (appReducer now s Action.toggleMic).isMicOn = !s.isMicOn ∧
    (appReducer now s Action.toggleMic).connectionState = s.connectionState ∧
    (appReducer now s Action.toggleMic).frames = s.frames ∧
    (appReducer now s Action.toggleMic).currentFrame = s.currentFrame ∧
    (appReducer now s Action.toggleMic).timelineData = s.timelineData :=
  ⟨rfl, rfl, rfl, rfl, rfl⟩

/-- C10: the reset event yields exactly the initial state after any prior
sequence of events, and the initial state is Disconnected with empty history,
empty timeline, no current frame and the mic on. -/
theorem reset_restores_initial (es : List (String × Action)) (now : String) :
    appReducer now (runEvents es) Action.reset = initialState ∧
    initialState.connectionState = ConnectionState.disconnected ∧
    initialState.frames = [] ∧
    initialState.timelineData = [] ∧
    initialState.currentFrame = none ∧
    initialState.isMicOn = true :=
  ⟨rfl, rfl, rfl, rfl, rfl, rfl⟩

/-- Folding video-loop events only ever appends tick ids to the transmission
log, and the appended part is a sublist of the offered tick ids. -/
theorem foldl_vidStep_sent (trace : List VidEvent) (s : VideoState) :
    ∃ l, (trace.foldl vidStep s).sent = s.sent ++ l ∧ List.Sublist l (tickIds trace) := by
  induction trace generalizing s with
  | nil => exact ⟨[], by simp, by simp [tickIds]⟩
  | cons e tr ih =>
      obtain ⟨l, hl, hsub⟩ := ih (vidStep s e)
      cases e with
      | sendComplete =>
          refine ⟨l, ?_, ?_⟩
          · rw [List.foldl_cons, hl]
            rfl
          · simpa [tickIds] using hsub
      | tick fid ready =>
          by_cases hp : s.processing
          · refine ⟨l, ?_, ?_⟩
            · rw [List.foldl_cons, hl]
              simp [vidStep, hp]
            · simp only [tickIds, List.filterMap_cons]
              exact hsub.cons fid
          · cases ready with
            | false =>
                refine ⟨l, ?_, ?_⟩
                · rw [List.foldl_cons, hl]
                  simp [vidStep, hp]
                · simp only [tickIds, List.filterMap_cons]
                  exact hsub.cons fid
            | true =>
                refine ⟨fid :: l, ?_, ?_⟩
                · rw [List.foldl_cons, hl]
                  simp [vidStep, hp]
                · simp only [tickIds, List.filterMap_cons]
                  exact hsub.cons₂ fid

/-- C3 counterexample: the reducer is not referentially transparent as a
function of state and event alone, because the ADD_FRAME branch reads the
wall clock; two evaluations at the same state and event but different clock
instants yield different states. -/
theorem reducer_reads_clock :
    appReducer "10:00:00" initialState (Action.addFrame sampleFrame) ≠
      appReducer "10:00:01" initialState (Action.addFrame sampleFrame) := by
  decide

/-- C3 amended: with the clock read made an explicit input, the reducer is
deterministic; the clock influences nothing but the time labels of the
timeline, and events other than add-frame do not depend on it at all. -/
theorem reducer_deterministic_mod_clock (n1 n2 : String) (s : AppState) (a : Action) :
    stripTimes (appReducer n1 s a) = stripTimes (appReducer n2 s a) ∧
    ((∀ f, a ≠ Action.addFrame f) → appReducer n1 s a = appReducer n2 s a) := by
  cases a with
  | setConnection c => exact ⟨rfl, fun _ => rfl⟩
  | toggleMic => exact ⟨rfl, fun _ => rfl⟩
  | reset => exact ⟨rfl, fun _ => rfl⟩
  | addFrame f =>
      refine ⟨?_, fun h => absurd rfl (h f)⟩
      simp [appReducer, stripTimes, map_rtake, stripPoint, mkTimelinePoint]

/-- Witness for the amended C3 theorem at a concrete non-add-frame event. -/
theorem reducer_deterministic_mod_clock_witness :
    stripTimes (appReducer "a" initialState Action.toggleMic) =
      stripTimes (appReducer "b" initialState Action.toggleMic) ∧
    appReducer "a" initialState Action.toggleMic = appReducer "b" initialState Action.toggleMic :=
  ⟨(reducer_deterministic_mod_clock "a" "b" initialState Action.toggleMic).1,
   (reducer_deterministic_mod_clock "a" "b" initialState Action.toggleMic).2
     (fun _ h => nomatch h)⟩

/-- C4: the running audio pipeline does not drop a buffer that arrives with
the mic toggled off. The onaudioprocess closure installed by startStreaming
captured state.isMicOn of the connect-time render and is never re-installed,
so after connect with the mic on, a toggle off, and a delivered buffer, the
current flag is off and yet the buffer is encoded and transmitted. -/
theorem audio_mute_uses_stale_flag :
    (List.foldl audioStep (installAudioCallback true)
        [AudioEvent.toggleMic, AudioEvent.buffer [1, 2]]).micNow = false ∧
    (List.foldl audioStep (installAudioCallback true)
        [AudioEvent.toggleMic, AudioEvent.buffer [1, 2]]).sent =
      [OutMessage.realtimeAudio (createPcmBlob [1, 2])] := by
  decide

/-- C5 counterexample: a field that is present in the payload is not always
taken unchanged. The decode uses JavaScript || defaulting, which also
replaces present falsy values: a present empty-string dominant_emotion
becomes the default Neutral. -/
theorem decode_present_field_replaced :
    argsEmptyEmotion.dominant_emotion = some "" ∧
    (decodeReportAnalysis "t" argsEmptyEmotion).dominant_emotion = "Neutral" := by
  decide

/-- C5 amended: absent optional fields get the documented defaults, and
present fields are taken unchanged unless their value is falsy (empty string
for the string fields), in which case the default is substituted; for the
numeric and boolean fields the falsy value coincides with the default, so a
present value is always preserved, and a present array is always preserved
because a JavaScript array is truthy. -/
theorem decode_defaults (now : String) (d : ReportAnalysisArgs) :
    (d.dominant_emotion = none → (decodeReportAnalysis now d).dominant_emotion = "Neutral") ∧
    (d.dominant_emotion = some "" → (decodeReportAnalysis now d).dominant_emotion = "Neutral") ∧
    (∀ s, d.dominant_emotion = some s → s ≠ "" →
      (decodeReportAnalysis now d).dominant_emotion = s) ∧
    (d.confidence = none → (decodeReportAnalysis now d).confidence = 0) ∧
    (∀ n, d.confidence = some n → (decodeReportAnalysis now d).confidence = n) ∧
    (d.micro_expression = none → (decodeReportAnalysis now d).micro_expression = none) ∧
    (d.micro_expression = some "" → (decodeReportAnalysis now d).micro_expression = none) ∧
    (∀ s, d.micro_expression = some s → s ≠ "" →
      (decodeReportAnalysis now d).micro_expression = some s) ∧
    (d.active_aus = none → (decodeReportAnalysis now d).active_aus = []) ∧
    (∀ l, d.active_aus = some l → (decodeReportAnalysis now d).active_aus = l) ∧
    (d.incongruence = none → (decodeReportAnalysis now d).incongruence = false) ∧
    (∀ b, d.incongruence = some b → (decodeReportAnalysis now d).incongruence = b) ∧
    (d.baseline_deviation = none → (decodeReportAnalysis now d).baseline_deviation = 0) ∧
    (∀ n, d.baseline_deviation = some n → (decodeReportAnalysis now d).baseline_deviation = n) ∧
    (d.analysis_summary = none → (decodeReportAnalysis now d).analysis_summary = "Processing...") ∧
    (d.analysis_summary = some "" →
      (decodeReportAnalysis now d).analysis_summary = "Processing...") ∧
    (∀ s, d.analysis_summary = some s → s ≠ "" →
      (decodeReportAnalysis now d).analysis_summary = s) ∧
    (decodeReportAnalysis now d).timestamp = now := by
  refine ⟨fun h => ?_, fun h => ?_, fun s hs hne => ?_, fun h => ?_, fun n hn => ?_,
    fun h => ?_, fun h => ?_, fun s hs hne => ?_, fun h => ?_, fun l hl => ?_,
    fun h => ?_, fun b hb => ?_, fun h => ?_, fun n hn => ?_, fun h => ?_,
    fun h => ?_, fun s hs hne => ?_, ?_⟩
  all_goals simp_all [decodeReportAnalysis, jsOrStr, jsOrInt, jsOrBool, jsOrNull, jsOrList]

/-- Witness for the amended C5 theorem at a fully absent and a fully present
payload. -/
theorem decode_defaults_witness :
    (decodeReportAnalysis "t" argsAbsent).dominant_emotion = "Neutral" ∧
    (decodeReportAnalysis "t" argsPresent).dominant_emotion = "Happy" ∧
    (decodeReportAnalysis "t" argsPresent).confidence = 42 :=
  ⟨(decode_defaults "t" argsAbsent).1 rfl,
   (decode_defaults "t" argsPresent).2.2.1 "Happy" rfl (by decide),
   (decode_defaults "t" argsPresent).2.2.2.2.1 42 rfl⟩

/-- C6: a connect attempt with no credential produces no effect at all: the
trace is empty, so no state transition happens (in particular not to
Connecting), and neither media acquisition nor session opening is
attempted. -/
theorem connect_missing_credential (mediaOk sessionOk : Bool) (now : String) (s : AppState) :
    connectTrace none mediaOk sessionOk = [] ∧
    applyEffs now s (connectTrace none mediaOk sessionOk) = s ∧
    Eff.requestMedia ∉ connectTrace none mediaOk sessionOk ∧
    Eff.openSession ∉ connectTrace none mediaOk sessionOk ∧
    Eff.dispatch (Action.setConnection ConnectionState.connecting) ∉
      connectTrace none mediaOk sessionOk := by
  simp [connectTrace, jsTruthyStr, applyEffs]

/-- C7: a video tick that fires while the guard is set leaves the loop state
entirely unchanged (no capture, no transmission, nothing queued), and over
any trace of the loop the transmitted frames form a sublist of the frames
offered by the ticks in firing order: frames may be skipped, never reordered
or duplicated. -/
theorem video_tick_reentrancy (s : VideoState) (fid : Nat) (ready : Bool)
    (h : s.processing = true) (trace : List VidEvent) :
    vidStep s (VidEvent.tick fid ready) = s ∧
    List.Sublist (vidRun trace).sent (tickIds trace) := by
  constructor
  · simp [vidStep, h]
  · obtain ⟨l, hl, hsub⟩ := foldl_vidStep_sent trace { processing := false, sent := [] }
    have : (vidRun trace).sent = l := by simpa [vidRun] using hl
    rw [this]
    exact hsub

/-- Witness for the C7 theorem at a concrete in-flight state and trace. -/
theorem video_tick_reentrancy_witness :
    vidStep { processing := true, sent := [3] } (VidEvent.tick 7 true)
        = { processing := true, sent := [3] } ∧
    List.Sublist (vidRun [VidEvent.tick 1 true, VidEvent.tick 2 true]).sent
      (tickIds [VidEvent.tick 1 true, VidEvent.tick 2 true]) :=
  video_tick_reentrancy { processing := true, sent := [3] } 7 true rfl
    [VidEvent.tick 1 true, VidEvent.tick 2 true]

/-- C8: disconnect is idempotent. When nothing was ever acquired it is a
complete no-op on resources and, if the state is already Disconnected, on the
state too; after any disconnect the state is Disconnected, and a second
disconnect changes nothing further, whatever resources were held. -/
theorem disconnect_idempotent_when_disconnected (now now2 : String) (r : Resources)
    (s : AppState) (h : s.connectionState = ConnectionState.disconnected) :
    disconnect now emptyResources s = (emptyResources, s) ∧
    (disconnect now r s).2.connectionState = ConnectionState.disconnected ∧
    disconnect now2 (disconnect now r s).1 (disconnect now r s).2 = disconnect now r s := by
  refine ⟨?_, rfl, ?_⟩
  · cases s with
    | mk cs fr cur tl mic =>
        simp_all [disconnect, stopStreaming, emptyResources, appReducer]
  · cases s with
    | mk cs fr cur tl mic =>
        cases hr : r.frameInterval <;>
          simp [disconnect, stopStreaming, appReducer, hr]

/-- Witness for the C8 theorem at the initial state with fully acquired
resources. -/
theorem disconnect_idempotent_witness :
    initialState.connectionState = ConnectionState.disconnected ∧
    (disconnect "t" emptyResources initialState = (emptyResources, initialState) ∧
      (disconnect "t" fullResources initialState).2.connectionState =
        ConnectionState.disconnected ∧
      disconnect "u" (disconnect "t" fullResources initialState).1
          (disconnect "t" fullResources initialState).2 =
        disconnect "t" fullResources initialState) :=
  ⟨rfl, disconnect_idempotent_when_disconnected "t" "u" fullResources initialState rfl⟩

end MicroX
